import Mathlib

/-
Verification of the county climate-tech dashboard (saf_streamlit7.py).

The development shallow-embeds the data-preparation and view pipeline of the
dashboard: missing cells are `Option` values (pandas NaN), numeric cells are
exact rationals, dataframes are lists of rows or association lists of named
columns, and each view is a pure function of the cached tables, mirroring the
per-render recomputation of the script.
-/

/-- Python str.zfill: left-pad with zeros to the requested width, keeping a
leading sign in front of the padding.  Used by
`gdf["GEOID"] = (gdf["STATEFP"] + gdf["COUNTYFP"]).astype(str).str.zfill(5)`. -/
def zfill (width : Nat) (s : String) : String :=
  if width ≤ s.length then s
  else
    match s.data with
    | '-' :: rest => ⟨'-' :: (List.replicate (width - s.length) '0' ++ rest)⟩
    | '+' :: rest => ⟨'+' :: (List.replicate (width - s.length) '0' ++ rest)⟩
    | _ => ⟨List.replicate (width - s.length) '0' ++ s.data⟩

/-- Join key derived by the geometry loader (source line 34): the state and
county FIPS strings are concatenated first and the concatenation is then
zero-padded to total width 5. -/
def county_geoid (statefp countyfp : String) : String :=
  zfill 5 (statefp ++ countyfp)

/-- Componentwise variant following the spec sentence word for word: the state
code zero-padded to 2 characters, then the county code zero-padded to 3,
each component padded to its own fixed width before concatenation. -/
def county_geoid_componentwise (statefp countyfp : String) : String :=
  zfill 2 statefp ++ zfill 3 countyfp

theorem zfill_of_width_le (width : Nat) (s : String) (h : width ≤ s.length) :
    zfill width s = s := by
  unfold zfill
  exact if_pos h

/-- Cells of the loaded csv table: `read_csv(..., dtype=str)` yields text cells
(`none` for NaN); `pd.to_numeric(..., errors="coerce")` turns a column into
numeric cells, unparseable values becoming missing. -/
inductive Cell : Type where
  | txt (s : Option String) : Cell
  | num (q : Option ℚ) : Cell
deriving DecidableEq

/-- Digit-string to number; `none` when the character list is empty or holds a
non-digit. -/
def parseDigits (l : List Char) : Option ℕ :=
  if l ≠ [] ∧ l.all (fun c => c.isDigit) then
    some (l.foldl (fun n c => 10 * n + (c.toNat - 48)) 0)
  else none

/-- Unsigned decimal literal, with an optional fractional part. -/
def parseUnsigned (l : List Char) : Option ℚ :=
  match l.splitOn '.' with
  | [intPart] => (parseDigits intPart).map (fun n => (n : ℚ))
  | [intPart, fracPart] =>
      match parseDigits intPart, parseDigits fracPart with
      | some i, some f => some ((i : ℚ) + (f : ℚ) / (10 ^ fracPart.length : ℚ))
      | _, _ => none
  | _ => none

/-- Decimal-literal fragment of the numeric parsing performed by
`pd.to_numeric`; an optional sign followed by digits. -/
def parseRat (s : String) : Option ℚ :=
  match s.data with
  | '-' :: rest => (parseUnsigned rest).map (fun q => -q)
  | '+' :: rest => parseUnsigned rest
  | l => parseUnsigned l

/-- Per-cell action of `pd.to_numeric(col, errors="coerce")`: text parses to a
number or becomes missing, missing stays missing, numbers pass through. -/
def to_numeric_cell : Cell → Cell
  | Cell.txt none => Cell.num none
  | Cell.txt (some s) => Cell.num (parseRat s)
  | Cell.num q => Cell.num q

/-- A dataframe as an ordered association list of named columns. -/
abbrev Frame : Type := List (String × List Cell)

/-- The numeric-coercion whitelist of load_data (source lines 18-24). -/
def numeric_cols : List String :=
  ["gdp", "population", "airport_count",
   "enplanements", "passengers", "departures",
   "arrivals", "freight", "mail",
   "Sustainable_Aviation_Fuels_degree_centrality",
   "SAF_FIRM_COUNT"]

/-- One assignment `df[col] = pd.to_numeric(df[col], errors="coerce")` applied
to every column entry named `col`. -/
def entryCoerce (col : String) (p : String × List Cell) : String × List Cell :=
  if p.1 = col then (p.1, p.2.map to_numeric_cell) else p

/-- The coercion loop of load_data (source lines 25-27):
`for col in numeric_cols: if col in df.columns: df[col] = pd.to_numeric(...)`. -/
def load_numeric_coerce (f : Frame) : Frame :=
  numeric_cols.foldl
    (fun acc col =>
      if acc.any (fun p => decide (p.1 = col)) then acc.map (entryCoerce col)
      else acc)
    f

theorem to_numeric_cell_idem (c : Cell) :
    to_numeric_cell (to_numeric_cell c) = to_numeric_cell c := by
  cases c with
  | txt s => cases s <;> rfl
  | num q => rfl

theorem coerce_step_eq (col : String) (f : Frame) :
    (if f.any (fun p => decide (p.1 = col)) then f.map (entryCoerce col) else f)
      = f.map (entryCoerce col) := by
  by_cases h : f.any (fun p => decide (p.1 = col)) = true
  · rw [if_pos h]
  · rw [if_neg h]
    have hall : ∀ p ∈ f, ¬ p.1 = col := by
      intro p hp
      have := List.any_eq_true.not.mp h
      push_neg at this
      have hd := this p hp
      simpa using hd
    have : ∀ p ∈ f, entryCoerce col p = p := by
      intro p hp
      unfold entryCoerce
      rw [if_neg (hall p hp)]
    exact ((List.map_congr_left this).trans (List.map_id f)).symm

theorem foldl_coerce_eq_map (ws : List String) (f : Frame) :
    ws.foldl
      (fun acc col =>
        if acc.any (fun p => decide (p.1 = col)) then acc.map (entryCoerce col)
        else acc)
      f
    = f.map (fun p => ws.foldl (fun q col => entryCoerce col q) p) := by
  induction ws generalizing f with
  | nil => simp
  | cons c ws ih =>
      rw [List.foldl_cons, coerce_step_eq c f, ih, List.map_map]
      apply List.map_congr_left
      intro p _
      simp [Function.comp]

theorem foldl_entryCoerce_point (ws : List String) (p : String × List Cell) :
    ws.foldl (fun q col => entryCoerce col q) p
      = if p.1 ∈ ws then (p.1, p.2.map to_numeric_cell) else p := by
  induction ws generalizing p with
  | nil => simp
  | cons c ws ih =>
      rw [List.foldl_cons]
      by_cases hc : p.1 = c
      · have h1 : entryCoerce c p = (p.1, p.2.map to_numeric_cell) := by
          unfold entryCoerce
          rw [if_pos hc]
        rw [h1, ih]
        have hmem : p.1 ∈ c :: ws := by
          rw [hc]; exact List.mem_cons_self c ws
        rw [if_pos hmem]
        by_cases hws : p.1 ∈ ws
        · rw [if_pos hws]
          have : (p.2.map to_numeric_cell).map to_numeric_cell = p.2.map to_numeric_cell := by
            rw [List.map_map]
            apply List.map_congr_left
            intro a _
            exact to_numeric_cell_idem a
          simp [this]
        · rw [if_neg hws]
      · have h1 : entryCoerce c p = p := by
          unfold entryCoerce
          rw [if_neg hc]
        rw [h1, ih]
        have : (p.1 ∈ c :: ws) ↔ (p.1 ∈ ws) := by
          simp [List.mem_cons, hc]
        by_cases hws : p.1 ∈ ws
        · rw [if_pos hws, if_pos (this.mpr hws)]
        · rw [if_neg hws, if_neg (fun hx => hws (this.mp hx))]

/-- C10: a whitelist column absent from the loaded frame is silently skipped:
the coercion loop is total (it raises no load-time error), the list of column
names is unchanged (no column is created, absent names stay absent), and each
column's output depends only on its own name and data, so the coercion of
every other column is unaffected. -/
theorem load_numeric_coerce_char (f : Frame) :
    load_numeric_coerce f
        = f.map (fun p => if p.1 ∈ numeric_cols then (p.1, p.2.map to_numeric_cell) else p)
      ∧ (load_numeric_coerce f).map Prod.fst = f.map Prod.fst
      ∧ (∀ name, name ∉ f.map Prod.fst → name ∉ (load_numeric_coerce f).map Prod.fst) := by
  have hchar : load_numeric_coerce f
      = f.map (fun p => if p.1 ∈ numeric_cols then (p.1, p.2.map to_numeric_cell) else p) := by
    unfold load_numeric_coerce
    rw [foldl_coerce_eq_map]
    apply List.map_congr_left
    intro p _
    exact foldl_entryCoerce_point numeric_cols p
  have hnames : (load_numeric_coerce f).map Prod.fst = f.map Prod.fst := by
    rw [hchar, List.map_map]
    apply List.map_congr_left
    intro p _
    by_cases hp : p.1 ∈ numeric_cols <;> simp [hp]
  refine ⟨hchar, hnames, ?_⟩
  intro name hname
  rw [hnames]
  exact hname

/-- Witness for C10 at a one-column frame: the whitelisted column "mail" is
absent and stays absent after the coercion loop. -/
theorem load_numeric_coerce_char_witness :
    "mail" ∉ ([("gdp", [Cell.txt (some "1")])] : Frame).map Prod.fst
      ∧ "mail" ∉ (load_numeric_coerce [("gdp", [Cell.txt (some "1")])]).map Prod.fst :=
  ⟨by decide,
   (load_numeric_coerce_char [("gdp", [Cell.txt (some "1")])]).2.2 "mail" (by decide)⟩

/-- C1 counterexample: on input state code "6" and county code "37" the code's
concatenate-then-pad key is "00637" while the componentwise-padded key the
claim asserts is "06037"; the two disagree, refuting the claim for all input
code strings. -/
theorem county_geoid_zfill_counterexample :
    county_geoid "6" "37" = "00637"
      ∧ county_geoid_componentwise "6" "37" = "06037"
      ∧ county_geoid "6" "37" ≠ county_geoid_componentwise "6" "37" := by
  refine ⟨?_, ?_, ?_⟩ <;> decide

/-- C1 (amended): the derived join key equals the state+county concatenation
zero-padded to total width 5; whenever the state code already has exactly 2
characters and the county code exactly 3 — as the FIPS attributes of the
shapefile do — it coincides with the componentwise-padded key and has length
exactly 5. -/
theorem county_geoid_fixed_width (s c : String)
    (hs : s.length = 2) (hc : c.length = 3) :
    county_geoid s c = county_geoid_componentwise s c
      ∧ (county_geoid s c).length = 5 := by
  have hlen : (s ++ c).length = 5 := by
    rw [String.length_append, hs, hc]
  have h1 : county_geoid s c = s ++ c := by
    unfold county_geoid
    exact zfill_of_width_le 5 (s ++ c) (le_of_eq hlen.symm)
  have h2 : county_geoid_componentwise s c = s ++ c := by
    unfold county_geoid_componentwise
    rw [zfill_of_width_le 2 s (le_of_eq hs.symm), zfill_of_width_le 3 c (le_of_eq hc.symm)]
  exact ⟨h1.trans h2.symm, h1 ▸ hlen⟩

/-- Witness for C1's amended statement at the Los Angeles FIPS pair. -/
theorem county_geoid_fixed_width_witness :
    ("06".length = 2 ∧ "037".length = 3)
      ∧ (county_geoid "06" "037" = county_geoid_componentwise "06" "037"
          ∧ (county_geoid "06" "037").length = 5) :=
  ⟨⟨by decide, by decide⟩, county_geoid_fixed_width "06" "037" (by decide) (by decide)⟩

/-- One row of the scatterplot frame `df[[x_col, y_col, "county_state"]]`
(source line 103): the selected X metric, the selected Y metric, and the
display label, each possibly missing. -/
structure ScatterRow : Type where
  x : Option ℚ
  y : Option ℚ
  county_state : Option String
deriving DecidableEq

/-- The `.dropna()` on the three-column selection (source line 103): a row
survives exactly when all three selected columns are present. -/
def scatter_plot_df (rows : List ScatterRow) : List ScatterRow :=
  rows.filter (fun r => r.x.isSome && r.y.isSome && r.county_state.isSome)

/-- The (x, y) pairs handed to the regression fit. -/
def scatter_complete (rows : List ScatterRow) : List (ℚ × ℚ) :=
  (scatter_plot_df rows).filterMap
    (fun r =>
      match r.x, r.y with
      | some a, some b => some (a, b)
      | _, _ => none)

/-- Shape of the design matrix produced by `sm.add_constant`. -/
inductive DesignKind : Type where
  | constAndX : DesignKind
  | xOnly : DesignKind
deriving DecidableEq

/-- The statsmodels `add_constant` call (source line 106) with its default
`has_constant="skip"`: when the x column is constant and nonzero no intercept
column is added; on an empty column the underlying `np.ptp` reduction raises
ValueError. -/
def add_constant (xs : List ℚ) : Except String DesignKind :=
  match xs with
  | [] => Except.error "zero-size array to reduction operation"
  | x :: rest =>
      if rest.all (fun v => decide (v = x)) && !(decide (x = 0)) then
        Except.ok DesignKind.xOnly
      else Except.ok DesignKind.constAndX

/-- The slope entry of `sm.OLS(y, X).fit().params` (source lines 107-108),
using the default pseudoinverse fit: with an intercept and non-constant x it
is the normal-equations slope; with an intercept and an all-zero x column the
minimal-norm solution assigns the x coefficient 0; without an intercept it is
the single-regressor ratio. -/
def ols_slope (cc : List (ℚ × ℚ)) : Except String ℚ :=
  match add_constant (cc.map Prod.fst) with
  | Except.error e => Except.error e
  | Except.ok DesignKind.xOnly =>
      Except.ok ((cc.map (fun p => p.1 * p.2)).sum / (cc.map (fun p => p.1 * p.1)).sum)
  | Except.ok DesignKind.constAndX =>
      let xs := cc.map Prod.fst
      let xbar := xs.sum / (xs.length : ℚ)
      let sxx := (xs.map (fun v => (v - xbar) * (v - xbar))).sum
      if sxx = 0 then Except.ok 0
      else Except.ok ((cc.map (fun p => (p.1 - xbar) * p.2)).sum / sxx)

/-- What the Scatterplot tab puts on screen for the slope (source lines
121-122). -/
inductive SlopeDisplay : Type where
  | shown (q : ℚ) : SlopeDisplay
  | hidden : SlopeDisplay
  | crashed (msg : String) : SlopeDisplay
deriving DecidableEq

/-- The slope pipeline of the Scatterplot tab for distinct X and Y columns:
fit, then `if slope is not None and not pd.isnull(slope)` display it.  On the
non-raising paths `model.params` always contains the x column and over exact
rationals `pd.isnull` is false, so the fitted slope is always displayed. -/
def scatter_slope_display (rows : List ScatterRow) : SlopeDisplay :=
  match ols_slope (scatter_complete rows) with
  | Except.error e => SlopeDisplay.crashed e
  | Except.ok s => SlopeDisplay.shown s

/-- C2: evaluation of the scatter pipeline at the degenerate record sets.  A
constant nonzero X across two rows displays slope 1, a single complete row
displays slope 2, a constant zero X displays slope 0, and an empty
complete-case set raises ValueError inside add_constant — the code never
reports the slope as unavailable in these cases, contradicting the claim. -/
theorem scatter_degenerate_slope_eval :
    scatter_slope_display
        [ScatterRow.mk (some 3) (some 1) (some "A"),
         ScatterRow.mk (some 3) (some 5) (some "B")] = SlopeDisplay.shown 1
      ∧ scatter_slope_display [ScatterRow.mk (some 2) (some 4) (some "C")]
          = SlopeDisplay.shown 2
      ∧ scatter_slope_display
          [ScatterRow.mk (some 0) (some 1) (some "D"),
           ScatterRow.mk (some 0) (some 5) (some "E")] = SlopeDisplay.shown 0
      ∧ scatter_slope_display [] = SlopeDisplay.crashed "zero-size array to reduction operation" := by
  refine ⟨?_, ?_, ?_, ?_⟩
  · have h1 : scatter_complete
        [ScatterRow.mk (some 3) (some 1) (some "A"),
         ScatterRow.mk (some 3) (some 5) (some "B")] = [((3:ℚ), (1:ℚ)), (3, 5)] := rfl
    have h2 : add_constant ([((3:ℚ), (1:ℚ)), (3, 5)].map Prod.fst)
        = Except.ok DesignKind.xOnly := rfl
    unfold scatter_slope_display ols_slope
    rw [h1, h2]
    norm_num
  · have h1 : scatter_complete [ScatterRow.mk (some 2) (some 4) (some "C")]
        = [((2:ℚ), (4:ℚ))] := rfl
    have h2 : add_constant ([((2:ℚ), (4:ℚ))].map Prod.fst)
        = Except.ok DesignKind.xOnly := rfl
    unfold scatter_slope_display ols_slope
    rw [h1, h2]
    norm_num
  · have h1 : scatter_complete
        [ScatterRow.mk (some 0) (some 1) (some "D"),
         ScatterRow.mk (some 0) (some 5) (some "E")] = [((0:ℚ), (1:ℚ)), (0, 5)] := rfl
    have h2 : add_constant ([((0:ℚ), (1:ℚ)), (0, 5)].map Prod.fst)
        = Except.ok DesignKind.constAndX := rfl
    unfold scatter_slope_display ols_slope
    rw [h1, h2]
    norm_num
  · rfl

/-- C3 counterexample: a row whose X and Y values are both present but whose
county_state label is missing is nevertheless excluded by the dropna of
source line 103, refuting that a row is excluded only when X or Y is
missing. -/
theorem scatter_dropna_label_counterexample :
    (ScatterRow.mk (some 1) (some 2) none).x.isSome = true
      ∧ (ScatterRow.mk (some 1) (some 2) none).y.isSome = true
      ∧ ScatterRow.mk (some 1) (some 2) none ∈ [ScatterRow.mk (some 1) (some 2) none]
      ∧ ScatterRow.mk (some 1) (some 2) none ∉
          scatter_plot_df [ScatterRow.mk (some 1) (some 2) none] := by
  refine ⟨rfl, rfl, by decide, by decide⟩

/-- C3 (amended): the regression fit uses exactly the rows in which the X
value, the Y value, and the county_state display label are all present; a row
is excluded from the fit if and only if one of those three is missing, and no
value is imputed. -/
theorem scatter_fit_rows_iff (rows : List ScatterRow) (r : ScatterRow) :
    r ∈ scatter_plot_df rows
      ↔ r ∈ rows ∧ r.x.isSome = true ∧ r.y.isSome = true ∧ r.county_state.isSome = true := by
  simp [scatter_plot_df, List.mem_filter, and_assoc]

/-- Witness for C3's amended statement: a fully populated row is kept. -/
theorem scatter_fit_rows_iff_witness :
    ScatterRow.mk (some 1) (some 2) (some "Autauga, Alabama")
      ∈ scatter_plot_df [ScatterRow.mk (some 1) (some 2) (some "Autauga, Alabama")] :=
  (scatter_fit_rows_iff _ _).mpr ⟨by decide, rfl, rfl, rfl⟩

/-- Column selection `df[cols]` over an association-list frame; a selection
list may repeat a label, in which case the resulting frame carries duplicate
column names, exactly as pandas does. -/
def selectCols (cols : List String) (f : Frame) : Frame :=
  cols.filterMap (fun c => (f.find? (fun p => decide (p.1 = c))).map (fun p => (c, p.2)))

/-- Column access `frame[c]`: every column whose name is `c`.  pandas returns
a Series when exactly one column matches and a DataFrame when several do. -/
def getCol (c : String) (f : Frame) : List (List Cell) :=
  (f.filter (fun p => decide (p.1 = c))).map Prod.snd

/-- Demonstration frame with the columns touched by the Scatterplot tab. -/
def demo_frame : Frame :=
  [("gdp", [Cell.num (some 1), Cell.num (some 2)]),
   ("Sustainable_Aviation_Fuels_degree_centrality",
      [Cell.num (some 3), Cell.num (some 4)]),
   ("county_state", [Cell.txt (some "A"), Cell.txt (some "B")])]

/-- C8: with x_col = y_col = "gdp" the selection
`df[[x_col, y_col, "county_state"]]` duplicates the gdp column, so
`plot_df[x_col]` and `plot_df[y_col]` are two-column frames rather than
single columns; `sm.OLS` then receives a two-column endog and an exog
containing the x column twice, and the display guard
`not pd.isnull(slope)` evaluates the truth value of a DataFrame and raises
ValueError — no slope of 1 is reported.  With distinct keys the selection is
a single column, as the fit expects. -/
theorem scatter_same_metric_duplicate_cols :
    (selectCols ["gdp", "gdp", "county_state"] demo_frame).map Prod.fst
        = ["gdp", "gdp", "county_state"]
      ∧ (getCol "gdp" (selectCols ["gdp", "gdp", "county_state"] demo_frame)).length = 2
      ∧ (getCol "gdp"
          (selectCols ["gdp", "Sustainable_Aviation_Fuels_degree_centrality", "county_state"]
            demo_frame)).length = 1 := by
  refine ⟨by decide, by decide, by decide⟩

/-- Comparison used when sorting a metric column ascending, with missing
values treated as the bottom element. -/
def keyQLe : Option ℚ → Option ℚ → Bool
  | none, _ => true
  | some _, none => false
  | some a, some b => decide (a ≤ b)

/-- Descending insertion of one row: it is placed in front of the first
element whose key is less than or equal to its own. -/
def ordInsertDesc {α : Type} (keyf : α → Option ℚ) (a : α) : List α → List α
  | [] => [a]
  | b :: l => if keyQLe (keyf b) (keyf a) then a :: b :: l else b :: ordInsertDesc keyf a l

/-- One concrete descending reordering of the rows, realised by insertion
sort.  `sort_values(..., ascending=False)` sorts with numpy's default
`kind="quicksort"` (introsort), whose order on tied keys is
implementation-defined — pandas documents only `mergesort`/`stable` as
stable — so only the properties of the result that are invariant under the
order of tied rows (being a permutation, descending keys) are properties of
the program; the tie order realised here is the representative the spec's
ranking contract asks for, which the program itself does not guarantee
(see the C4 finding). -/
def sortDesc {α : Type} (keyf : α → Option ℚ) : List α → List α
  | [] => []
  | a :: l => ordInsertDesc keyf a (sortDesc keyf l)

/-- The full row permutation of `df.sort_values(metric, ascending=False)`
with the default `na_position="last"`: pandas nargsort separates the
missing-key rows before sorting and appends them in their original order
whatever the sort kind, after the non-missing rows in descending key order
(their tie order being the implementation-defined part represented by
`sortDesc`). -/
def nanLastSortDesc {α : Type} (keyf : α → Option ℚ) (rows : List α) : List α :=
  sortDesc keyf (rows.filter (fun r => (keyf r).isSome))
    ++ rows.filter (fun r => (keyf r).isNone)

/-- The Ranking View pipeline `df.sort_values(metric, ascending=False).head(n)`
(source lines 75-77), with the metric key and the count as parameters; the
Overview tab instantiates the metric to the SAF centrality column and n to
25. -/
def hidden_champions {α : Type} (keyf : α → Option ℚ) (n : ℕ) (rows : List α) : List α :=
  (nanLastSortDesc keyf rows).take n

theorem ordInsertDesc_perm {α : Type} (keyf : α → Option ℚ) (a : α) (m : List α) :
    (ordInsertDesc keyf a m).Perm (a :: m) := by
  induction m with
  | nil => exact List.Perm.refl _
  | cons b l ih =>
    by_cases h : keyQLe (keyf b) (keyf a) = true
    · have he : ordInsertDesc keyf a (b :: l) = a :: b :: l := by
        simp only [ordInsertDesc]
        exact if_pos h
      rw [he]
    · have he : ordInsertDesc keyf a (b :: l) = b :: ordInsertDesc keyf a l := by
        simp only [ordInsertDesc]
        exact if_neg h
      rw [he]
      exact (List.Perm.cons b ih).trans (List.Perm.swap a b l)

theorem sortDesc_perm {α : Type} (keyf : α → Option ℚ) (l : List α) :
    (sortDesc keyf l).Perm l := by
  induction l with
  | nil => exact List.Perm.refl _
  | cons a l ih =>
    exact (ordInsertDesc_perm keyf a (sortDesc keyf l)).trans (List.Perm.cons a ih)

/-- C7: the full sort decomposes into a permutation of the present-valued
rows followed by the missing-valued rows in original order, so missing rows
are never dropped and sit after every present row; once the count exceeds the
number of present rows the top-N output keeps exactly the leading missing
rows at its bottom. -/
theorem hidden_champions_missing_last {α : Type} (keyf : α → Option ℚ) (n : ℕ)
    (rows : List α) :
    (∃ l₁, nanLastSortDesc keyf rows = l₁ ++ rows.filter (fun r => (keyf r).isNone)
        ∧ l₁.Perm (rows.filter (fun r => (keyf r).isSome))
        ∧ ((rows.filter (fun r => (keyf r).isSome)).length ≤ n →
            hidden_champions keyf n rows
              = l₁ ++ (rows.filter (fun r => (keyf r).isNone)).take
                  (n - (rows.filter (fun r => (keyf r).isSome)).length)))
      ∧ (∀ r, r ∈ rows → (keyf r).isNone = true → r ∈ nanLastSortDesc keyf rows) := by
  constructor
  · refine ⟨sortDesc keyf (rows.filter (fun r => (keyf r).isSome)), rfl,
      sortDesc_perm keyf _, ?_⟩
    intro hn
    unfold hidden_champions nanLastSortDesc
    have hlen : (sortDesc keyf (rows.filter (fun r => (keyf r).isSome))).length
        = (rows.filter (fun r => (keyf r).isSome)).length :=
      (sortDesc_perm keyf _).length_eq
    have h4 := @List.take_append α
      (sortDesc keyf (rows.filter (fun r => (keyf r).isSome)))
      (rows.filter (fun r => (keyf r).isNone))
      (n - (rows.filter (fun r => (keyf r).isSome)).length)
    have h5 : (sortDesc keyf (rows.filter (fun r => (keyf r).isSome))).length
        + (n - (rows.filter (fun r => (keyf r).isSome)).length) = n := by
      rw [hlen]
      omega
    rw [h5] at h4
    exact h4
  · intro r hr hnone
    unfold nanLastSortDesc
    exact List.mem_append_right _ (List.mem_filter.mpr ⟨hr, hnone⟩)

/-- One row of the loaded county dataset, restricted to the columns the
hidden-champions table displays (source lines 77-80). -/
structure CountyRecord : Type where
  county_state : Option String
  gdp : Option ℚ
  population : Option ℚ
  airport_count : Option ℚ
  Sustainable_Aviation_Fuels_degree_centrality : Option ℚ
  SAF_FIRM_COUNT : Option ℚ
deriving DecidableEq

/-- The Overview tab's table (source lines 75-81): sort by SAF centrality
descending, keep the first 25 rows, and project the display columns. -/
def hidden_champions_table (df : List CountyRecord) :
    List (Option String × Option ℚ × Option ℚ × Option ℚ × Option ℚ × Option ℚ) :=
  (hidden_champions CountyRecord.Sustainable_Aviation_Fuels_degree_centrality 25 df).map
    (fun r => (r.county_state, r.gdp, r.population, r.airport_count,
      r.Sustainable_Aviation_Fuels_degree_centrality, r.SAF_FIRM_COUNT))

/-- Sample rows: hcA and hcB tie on the centrality metric, hcC has it
missing. -/
def hcA : CountyRecord :=
  CountyRecord.mk (some "Alpha, Alabama") (some 10) (some 100) (some 1) (some 5) (some 2)

/-- Second sample row, tied with hcA on centrality. -/
def hcB : CountyRecord :=
  CountyRecord.mk (some "Beta, Berkshire") (some 20) (some 200) (some 2) (some 5) (some 3)

/-- Third sample row, centrality missing. -/
def hcC : CountyRecord :=
  CountyRecord.mk (some "Gamma, Georgia") (some 30) (some 300) (some 3) none (some 4)

/-- C4: the tie order the claim promises is not a property of the program.
The two distinct rows hcA and hcB tie on the ranking metric, and both
orderings of them satisfy everything `sort_values(metric, ascending=False)`
with its default `kind="quicksort"` guarantees for them — each is a
permutation of the record set with descending metric values — yet the claim's
stable tie-break admits only the original order.  numpy's introsort leaves
the choice between the two implementation-defined (pandas documents only
`kind="mergesort"`/`"stable"` as stable), so the top-N output of source lines
75-77 is not guaranteed to break ties by original row order; the spec's
ranking contract requires a stable sort kind the code does not pass. -/
theorem ranking_tie_order_underdetermined :
    hcA ≠ hcB
      ∧ hcA.Sustainable_Aviation_Fuels_degree_centrality
          = hcB.Sustainable_Aviation_Fuels_degree_centrality
      ∧ List.Perm [hcB, hcA] [hcA, hcB]
      ∧ List.Pairwise (fun u v =>
          keyQLe (CountyRecord.Sustainable_Aviation_Fuels_degree_centrality v)
            (CountyRecord.Sustainable_Aviation_Fuels_degree_centrality u) = true)
          [hcA, hcB]
      ∧ List.Pairwise (fun u v =>
          keyQLe (CountyRecord.Sustainable_Aviation_Fuels_degree_centrality v)
            (CountyRecord.Sustainable_Aviation_Fuels_degree_centrality u) = true)
          [hcB, hcA] :=
  ⟨by decide, rfl, List.Perm.swap hcA hcB [], by decide, by decide⟩

/-- Witness for C7: the row with missing centrality is kept by the sort. -/
theorem hidden_champions_missing_last_witness :
    hcC ∈ ([hcA, hcC] : List CountyRecord)
      ∧ (CountyRecord.Sustainable_Aviation_Fuels_degree_centrality hcC).isNone = true
      ∧ hcC ∈ nanLastSortDesc CountyRecord.Sustainable_Aviation_Fuels_degree_centrality
          [hcA, hcC] :=
  ⟨by decide, rfl,
   (hidden_champions_missing_last
      CountyRecord.Sustainable_Aviation_Fuels_degree_centrality 25 [hcA, hcC]).2
     hcC (by decide) rfl⟩

/-- One feature of the county boundary shapefile, reduced to its join key and
an opaque boundary payload. -/
structure GeoRow : Type where
  GEOID : String
  geometry : String
deriving DecidableEq

/-- One record of the county dataset as seen by the Choropleth tab: the join
key, the display label, and the named numeric metric columns. -/
structure DataRow : Type where
  GEOID : String
  county_state : Option String
  metrics : List (String × Option ℚ)
deriving DecidableEq

/-- Value of a named metric column in a record; missing when the column is
absent or its cell is NaN. -/
def getMetric (d : DataRow) (key : String) : Option ℚ :=
  match d.metrics.find? (fun p => p.1 == key) with
  | some p => p.2
  | none => none

/-- The selected-metric cell of a merged row; null when the geometry row had
no matching record, exactly as after a left merge. -/
def rowMetric (key : String) (r : GeoRow × Option DataRow) : Option ℚ :=
  match r.2 with
  | some d => getMetric d key
  | none => none

/-- The pandas left merge `gdf.merge(df, on="GEOID", how="left")` (source
line 159): every geometry row is kept; it is paired with each record sharing
its GEOID, or with null record columns when no record matches. -/
def mergeLeft (gdf : List GeoRow) (df : List DataRow) : List (GeoRow × Option DataRow) :=
  gdf.flatMap (fun g =>
    match df.filter (fun d => d.GEOID == g.GEOID) with
    | [] => [(g, none)]
    | m => m.map (fun d => (g, some d)))

/-- The Joiner of the Choropleth tab (source line 159): left merge on GEOID,
then `.dropna(subset=[selected_key])`. -/
def joiner (gdf : List GeoRow) (df : List DataRow) (key : String) :
    List (GeoRow × Option DataRow) :=
  (mergeLeft gdf df).filter (fun r => (rowMetric key r).isSome)

/-- Left join as the spec words it: every geometry row kept once, paired with
its matching record by identifier, record columns null if unmatched.  Stated
over record sets with unique identifiers, per the data-model invariant. -/
def leftJoinSpec (gdf : List GeoRow) (df : List DataRow) :
    List (GeoRow × Option DataRow) :=
  gdf.map (fun g => (g, df.find? (fun d => d.GEOID == g.GEOID)))

theorem filter_geoid_eq_toList (df : List DataRow) (gid : String)
    (h : (df.map DataRow.GEOID).Nodup) :
    df.filter (fun d => d.GEOID == gid) = (df.find? (fun d => d.GEOID == gid)).toList := by
  induction df with
  | nil => rfl
  | cons d ds ih =>
    rw [List.map_cons, List.nodup_cons] at h
    obtain ⟨hnot, hnd⟩ := h
    by_cases hd : (d.GEOID == gid) = true
    · have hfil : List.filter (fun d => d.GEOID == gid) (d :: ds)
          = d :: List.filter (fun d => d.GEOID == gid) ds := by
        simp [List.filter_cons, hd]
      have hfind : List.find? (fun d => d.GEOID == gid) (d :: ds) = some d := by
        simp [List.find?_cons, hd]
      have hrest : ds.filter (fun d => d.GEOID == gid) = [] := by
        rw [List.filter_eq_nil_iff]
        intro e he hprop
        apply hnot
        have h1 : e.GEOID = gid := beq_iff_eq.mp hprop
        have h2 : d.GEOID = gid := beq_iff_eq.mp hd
        rw [h2, ← h1]
        exact List.mem_map_of_mem DataRow.GEOID he
      rw [hfil, hfind, hrest]
      rfl
    · have hfil : List.filter (fun d => d.GEOID == gid) (d :: ds)
          = List.filter (fun d => d.GEOID == gid) ds := by
        simp [List.filter_cons, hd]
      have hfind : List.find? (fun d => d.GEOID == gid) (d :: ds)
          = List.find? (fun d => d.GEOID == gid) ds := by
        simp [List.find?_cons, hd]
      rw [hfil, hfind]
      exact ih hnd

theorem mergeLeft_eq_leftJoinSpec (gdf : List GeoRow) (df : List DataRow)
    (h : (df.map DataRow.GEOID).Nodup) :
    mergeLeft gdf df = leftJoinSpec gdf df := by
  unfold mergeLeft leftJoinSpec
  induction gdf with
  | nil => rfl
  | cons g gs ih =>
    rw [List.flatMap_cons, List.map_cons, ih]
    rw [filter_geoid_eq_toList df g.GEOID h]
    cases hf : df.find? (fun d => d.GEOID == g.GEOID) with
    | none => rfl
    | some d => rfl

/-- C6: under the data-model invariant that record identifiers are unique,
the Joiner's output equals the spec's left join followed by removal of
exactly the rows whose selected-metric value is missing; and when nothing
survives that removal the Joiner returns the empty set rather than an
error. -/
theorem joiner_left_join_then_dropna (gdf : List GeoRow) (df : List DataRow)
    (key : String) (h : (df.map DataRow.GEOID).Nodup) :
    joiner gdf df key
        = (leftJoinSpec gdf df).filter (fun r => (rowMetric key r).isSome)
      ∧ ((∀ r ∈ leftJoinSpec gdf df, (rowMetric key r).isSome = false) →
          joiner gdf df key = []) := by
  have he : joiner gdf df key
      = (leftJoinSpec gdf df).filter (fun r => (rowMetric key r).isSome) := by
    unfold joiner
    rw [mergeLeft_eq_leftJoinSpec gdf df h]
  refine ⟨he, ?_⟩
  intro hall
  rw [he, List.filter_eq_nil_iff]
  intro r hr
  rw [hall r hr]
  exact Bool.false_ne_true

/-- Sample geometry rows for the join witnesses. -/
def geoAutauga : GeoRow := GeoRow.mk "01001" "polygonA"

/-- Geometry row with no matching record. -/
def geoNowhere : GeoRow := GeoRow.mk "99999" "polygonB"

/-- Sample record matching geoAutauga, with a present gdp and a missing
population. -/
def recAutauga : DataRow :=
  DataRow.mk "01001" (some "Autauga, Alabama") [("gdp", some 5), ("population", none)]

/-- Witness for C6 on a two-geometry, one-record set. -/
theorem joiner_left_join_then_dropna_witness :
    (([recAutauga].map DataRow.GEOID).Nodup
      ∧ joiner [geoAutauga, geoNowhere] [recAutauga] "gdp"
          = (leftJoinSpec [geoAutauga, geoNowhere] [recAutauga]).filter
              (fun r => (rowMetric "gdp" r).isSome))
      ∧ joiner [geoAutauga, geoNowhere] [recAutauga] "gdp"
          = [(geoAutauga, some recAutauga)] :=
  ⟨⟨by decide,
    (joiner_left_join_then_dropna [geoAutauga, geoNowhere] [recAutauga] "gdp" (by decide)).1⟩,
   by decide⟩

/-- The metric dropdown of the Choropleth tab (source lines 137-151), an
ordered key-to-label mapping including the placeholder entries. -/
def metric_options : List (String × String) :=
  [("Sustainable_Aviation_Fuels_degree_centrality", "SAF Centrality"),
   ("gdp", "GDP"),
   ("population", "Population"),
   ("airport_count", "Airport Count"),
   ("enplanements", "Enplanements"),
   ("passengers", "Passengers"),
   ("departures", "Departures"),
   ("arrivals", "Arrivals"),
   ("freight", "Freight"),
   ("mail", "Mail"),
   ("biomass", "Biomass (Coming Soon)"),
   ("ccs", "CCS (Coming Soon)"),
   ("hydrogen", "Hydrogen (Coming Soon)")]

/-- Character-list test that `pat` occurs at the head of `s`. -/
def charsStartWith : List Char → List Char → Bool
  | [], _ => true
  | _ :: _, [] => false
  | p :: ps, c :: cs => p == c && charsStartWith ps cs

/-- Character-list test that `pat` occurs somewhere inside `s`. -/
def charsHaveSub (pat : List Char) : List Char → Bool
  | [] => pat.isEmpty
  | c :: cs => charsStartWith pat (c :: cs) || charsHaveSub pat cs

/-- The Python substring test `pat in s`. -/
def strHasSub (pat s : String) : Bool :=
  charsHaveSub pat.data s.data

/-- The placeholder test of source line 156:
`"Coming Soon" in metric_options[selected_key]`. -/
def isComingSoon (label : String) : Bool :=
  strHasSub "Coming Soon" label

/-- What the Choropleth tab renders. -/
inductive ChoroOutput : Type where
  | info (msg : String) : ChoroOutput
  | mapRender (rows : List (GeoRow × Option DataRow)) : ChoroOutput
deriving DecidableEq

/-- The Choropleth tab branch on the selected key (source lines 153-159): a
placeholder label yields the info message, otherwise the Joiner runs; a key
outside the dropdown would be a Python KeyError, which the selectbox makes
unreachable. -/
def choropleth_tab (selected_key : String) (gdf : List GeoRow) (df : List DataRow) :
    Except String ChoroOutput :=
  match metric_options.find? (fun p => p.1 == selected_key) with
  | none => Except.error "KeyError"
  | some p =>
      if isComingSoon p.2 then
        Except.ok (ChoroOutput.info
          (p.2 ++ " not available yet. This demo shows SAF, but the tool is generalizable to all climate techs."))
      else Except.ok (ChoroOutput.mapRender (joiner gdf df selected_key))

/-- One render of the Choropleth tab over the cached session state: pandas
merge and dropna allocate new frames (`inplace` is not used anywhere), so the
cached geometry and record tables pass through unchanged. -/
def render_choropleth (key : String) (st : List GeoRow × List DataRow) :
    List (GeoRow × Option DataRow) × (List GeoRow × List DataRow) :=
  (joiner st.1 st.2 key, st)

/-- C5: selecting any of the three placeholder keys yields exactly the info
indication, and the output is the same whatever geometry and record sets are
cached — the Joiner is never consulted; selecting any of the ten available
keys hands the selection to the Joiner. -/
theorem choropleth_placeholder_no_join (gdf : List GeoRow) (df : List DataRow) :
    (∀ k, k ∈ ["biomass", "ccs", "hydrogen"] →
        (∃ msg, choropleth_tab k gdf df = Except.ok (ChoroOutput.info msg))
          ∧ choropleth_tab k gdf df = choropleth_tab k [] [])
      ∧ (∀ k, k ∈ ["Sustainable_Aviation_Fuels_degree_centrality", "gdp", "population",
            "airport_count", "enplanements", "passengers", "departures", "arrivals",
            "freight", "mail"] →
          choropleth_tab k gdf df = Except.ok (ChoroOutput.mapRender (joiner gdf df k))) := by
  constructor
  · intro k hk
    fin_cases hk
    · exact ⟨⟨_, rfl⟩, rfl⟩
    · exact ⟨⟨_, rfl⟩, rfl⟩
    · exact ⟨⟨_, rfl⟩, rfl⟩
  · intro k hk
    fin_cases hk
    · rfl
    · rfl
    · rfl
    · rfl
    · rfl
    · rfl
    · rfl
    · rfl
    · rfl
    · rfl

/-- Witness for C5 at the hydrogen placeholder and the gdp metric. -/
theorem choropleth_placeholder_no_join_witness :
    ("hydrogen" ∈ ["biomass", "ccs", "hydrogen"]
      ∧ ∃ msg, choropleth_tab "hydrogen" [] [] = Except.ok (ChoroOutput.info msg))
      ∧ ("gdp" ∈ ["Sustainable_Aviation_Fuels_degree_centrality", "gdp", "population",
            "airport_count", "enplanements", "passengers", "departures", "arrivals",
            "freight", "mail"]
          ∧ choropleth_tab "gdp" [geoAutauga] [recAutauga]
              = Except.ok (ChoroOutput.mapRender (joiner [geoAutauga] [recAutauga] "gdp"))) :=
  ⟨⟨by decide, ((choropleth_placeholder_no_join [] []).1 "hydrogen" (by decide)).1⟩,
   ⟨by decide, (choropleth_placeholder_no_join [geoAutauga] [recAutauga]).2 "gdp" (by decide)⟩⟩

/-- C9: rendering the same metric over the cached state twice returns
identical join results, the cached state is unchanged by rendering, and the
dropna filter is idempotent on the join output (no hidden mutation of the
inputs or of the merged frame). -/
theorem choropleth_render_deterministic (key : String)
    (st : List GeoRow × List DataRow) :
    (render_choropleth key (render_choropleth key st).2).1 = (render_choropleth key st).1
      ∧ (render_choropleth key (render_choropleth key st).2).2 = st
      ∧ List.filter (fun r => (rowMetric key r).isSome) (joiner st.1 st.2 key)
          = joiner st.1 st.2 key := by
  refine ⟨rfl, rfl, ?_⟩
  unfold joiner
  rw [List.filter_filter]
  apply List.filter_congr
  intro r _
  exact Bool.and_self ((rowMetric key r).isSome)
